import Mathlib

/-!
Shallow embedding of `neuralprophet/plotting_utils.py` and verification of the
specification's claims about it.

Modelling conventions:
* Python floats are modelled as rationals (`ℚ`); every float literal in the
  source is an exact decimal, so this is faithful.
* A pandas column is a `List (Option ℚ)`: `none` models a null/NaN cell.
* A forecast table (`pd.DataFrame`) is a timestamp column `ds` plus an ordered
  association list of named columns.
* Python exceptions (failed `assert`, `KeyError` on a missing column,
  `TypeError` from comparing `None` with an int, matplotlib's shape-mismatch
  `ValueError`) are modelled with `Except String`.
* A matplotlib draw call (`ax.plot` / `ax.bar`) is modelled as producing a
  `Mark` value recording the data, colour, width and alpha handed to it;
  matplotlib raises when x and y have different lengths, which the `axPlot` /
  `axBar` / `axPoints` wrappers reproduce.
-/

set_option maxRecDepth 4000
set_option linter.unusedVariables false

namespace NP

/-- A pandas column: one optional rational per row (`none` = null/NaN). -/
abbrev Series := List (Option ℚ)

/-- A forecast table: the `ds` timestamp column plus named data columns. -/
structure Fcst where
  ds : List ℚ
  cols : List (String × Series)
  deriving DecidableEq

/-- `fcst.columns` of pandas: the column names in order. -/
def Fcst.columns (f : Fcst) : List String := f.cols.map Prod.fst

/-- Column lookup, `fcst[name]`, as an `Option`. -/
def Fcst.lookup (f : Fcst) (name : String) : Option Series :=
  (f.cols.find? (fun c => c.1 == name)).map Prod.snd

/-- Column access `fcst[name]`; a missing column raises `KeyError`. -/
def getCol (f : Fcst) (name : String) : Except String Series :=
  match f.lookup name with
  | some y => .ok y
  | none => .error "KeyError"

/-- Substring test, Python's `pat in s`. -/
def strContains (s pat : String) : Bool :=
  (List.range (s.length + 1)).any (fun i => (s.drop i).take pat.length == pat)

/-- The column name `'yhat{}'.format(n)`. -/
def yhatName (n : ℕ) : String := "yhat" ++ toString n

/-- A drawable mark handed to matplotlib. -/
inductive Mark where
  /-- `ax.plot(xs, ys, ls='-', color=color, alpha=alpha)` on full columns. -/
  | line (xs : List ℚ) (ys : Series) (color : String) (alpha : Option ℚ)
  /-- `ax.plot(xs, ys, style)` drawing markers on full columns. -/
  | pointsMark (xs : List ℚ) (ys : Series) (style : String)
  /-- `ax.bar(xs, ys, width=width, color=color, alpha=alpha)` on full columns. -/
  | barMark (xs : List ℚ) (ys : Series) (width : ℚ) (color : String) (alpha : Option ℚ)
  /-- A line drawn from already null-filtered (timestamp, value) pairs. -/
  | linePts (pts : List (ℚ × ℚ)) (color : String) (alpha : Option ℚ)
  /-- A bar series drawn from already null-filtered (timestamp, value) pairs. -/
  | barPts (pts : List (ℚ × ℚ)) (width : ℚ) (color : String) (alpha : Option ℚ)
  deriving DecidableEq

/-- `ax.plot(xs, ys, ls='-', ...)`: matplotlib raises `ValueError` when the two
sequences have different lengths. -/
def axPlot (xs : List ℚ) (ys : Series) (color : String) (alpha : Option ℚ) :
    Except String Mark :=
  if xs.length = ys.length then .ok (.line xs ys color alpha)
  else .error "ValueError: x and y must have same first dimension"

/-- `ax.plot(xs, ys, style)` marker drawing, with the same length check. -/
def axPoints (xs : List ℚ) (ys : Series) (style : String) : Except String Mark :=
  if xs.length = ys.length then .ok (.pointsMark xs ys style)
  else .error "ValueError: x and y must have same first dimension"

/-- `ax.bar(xs, ys, width=w, ...)`: matplotlib raises `ValueError` when the two
sequences cannot be broadcast to a single shape. -/
def axBar (xs : List ℚ) (ys : Series) (width : ℚ) (color : String)
    (alpha : Option ℚ) : Except String Mark :=
  if xs.length = ys.length then .ok (.barMark xs ys width color alpha)
  else .error "ValueError: shape mismatch"

/-- Monadic map over `Except`, modelling a Python `for` loop that stops at the
first raised exception. -/
def mapExcept {α β : Type} (f : α → Except String β) :
    List α → Except String (List β)
  | [] => .ok []
  | a :: as => do
    let b ← f a
    let bs ← mapExcept f as
    pure (b :: bs)

/-- The composite-forecast overlay alpha, `0.2 + 2.0/(i+2.5)` from `plot`. -/
def alphaComposite (i : ℕ) : ℚ := 1/5 + 2 / ((i : ℚ) + 5/2)

/-- The multi-forecast overlay alpha from `plot_multiforecast_component`:
`alpha_min + alpha_softness*(1.0-alpha_min) / (i + 1.0*alpha_softness)`
with `alpha_min = 0.2`, `alpha_softness = 1.2`. -/
def alphaMulti (i : ℕ) : ℚ :=
  let alpha_min : ℚ := 1/5
  let alpha_softness : ℚ := 6/5
  alpha_min + alpha_softness * (1 - alpha_min) / ((i : ℚ) + 1 * alpha_softness)

/-- `plot(fcst, highlight_forecast=...)` of `plotting_utils.py`: draw one
overlay line per `yhat` column with fading alpha, then (if given) the
highlighted forecast as a solid line plus `'bx'` markers, then the actual
values `fcst['y']` as `'k.'` markers. -/
def plot (fcst : Fcst) (highlight_forecast : Option ℕ) :
    Except String (List Mark) := do
  let ds := fcst.ds
  let yhat_col_names := fcst.columns.filter (fun c => strContains c "yhat")
  let overlays ← mapExcept (fun i => do
      let y ← getCol fcst (yhatName (i + 1))
      axPlot ds y "#0072B2" (some (alphaComposite i)))
    (List.range yhat_col_names.length)
  let hmarks ← match highlight_forecast with
    | none => pure []
    | some h => do
        let y ← getCol fcst (yhatName h)
        let m1 ← axPlot ds y "b" none
        let m2 ← axPoints ds y "bx"
        pure [m1, m2]
  let ycol ← getCol fcst "y"
  let ym ← axPoints ds ycol "k."
  pure (overlays ++ hmarks ++ [ym])

/-- Keep the (timestamp, value) pairs whose value is non-null, modelling
`notnull = y.notnull(); fcst_t[notnull], y[notnull]`. -/
def notnullPairs (ds : List ℚ) (y : Series) : List (ℚ × ℚ) :=
  (ds.zip y).filterMap (fun p =>
    match p.2 with
    | some v => some (p.1, v)
    | none => none)

/-- Bar or line mark on null-filtered pairs, per the `bar` flag. -/
def mkSeriesMark (bar : Bool) (pts : List (ℚ × ℚ)) (width : ℚ) (color : String)
    (alpha : Option ℚ) : Mark :=
  if bar then .barPts pts width color alpha else .linePts pts color alpha

/-- `plot_multiforecast_component` of `plotting_utils.py`. The first statement
is `assert num_overplot <= len(col_names)`: comparing `None` with an `int` is a
Python 3 `TypeError`, and a failed assert is an `AssertionError`; both abort
before anything is drawn. Then one overlay per horizon, iterating `i` from
`num_overplot - 1` down to `0`, each null-filtered; finally (since
`num_overplot` is never `None` past the assert) the focused series is drawn
iff `focus > 1`. -/
def plot_multiforecast_component (fcst : Fcst) (comp_name : String) (bar : Bool)
    (focus : ℕ) (num_overplot : Option ℕ) : Except String (List Mark) := do
  let ds := fcst.ds
  let col_names := fcst.columns.filter (fun c => c.startsWith comp_name)
  match num_overplot with
  | none => .error "TypeError: NoneType and int are not comparable"
  | some n =>
    if col_names.length < n then .error "AssertionError"
    else do
      let overlays ← mapExcept (fun i => do
          let y ← getCol fcst (comp_name ++ toString (i + 1))
          pure (mkSeriesMark bar (notnullPairs ds y) 1 "#0072B2"
            (some (alphaMulti i))))
        (List.range n).reverse
      if 1 < focus then do
        let y ← getCol fcst (comp_name ++ toString focus)
        pure (overlays ++ [mkSeriesMark bar (notnullPairs ds y) 1 "b" none])
      else
        pure overlays

/-- Mean of a list of (non-null) values; `none` when the window holds no
non-null value (pandas yields NaN then, `min_periods=1` notwithstanding). -/
def meanOpt (vs : List ℚ) : Option ℚ :=
  if vs.length = 0 then none else some (vs.sum / (vs.length : ℚ))

/-- Row indices of the pandas centered window of size `w` at row `i`: pandas
places the window at `[i - (w-1)//2, i + w//2]`, clipped to the frame; the
lower bound is phrased additively to avoid truncated subtraction. -/
def pandasWindow (w n i : ℕ) : List ℕ :=
  (List.range n).filter (fun j => decide (i ≤ j + (w - 1) / 2 ∧ j ≤ i + w / 2))

/-- `fcst[comp_name].rolling(w, min_periods=1, center=True).mean()` of pandas:
per row, the mean of the non-null values in the centered window, `none` when
the window holds none. -/
def rollingMeanPandas (w : ℕ) (xs : Series) : Series :=
  (List.range xs.length).map (fun i =>
    meanOpt ((pandasWindow w xs.length i).filterMap (fun j => (xs.get? j).bind id)))

/-- Reference definition following the spec's words: the centered rolling mean
with window `w` and minimum period 1 — at row `i`, the mean of the non-null
values at row indices `j` with `|j - i| ≤ (w-1)/2`, averaging over however
many samples fall in the window at the edges. -/
def centeredMeanSpec (w : ℕ) (xs : Series) (i : ℕ) : Option ℚ :=
  meanOpt (((List.range xs.length).filter
      (fun j => decide (i ≤ j + (w - 1) / 2 ∧ j ≤ i + (w - 1) / 2))).filterMap
    (fun j => (xs.get? j).bind id))

/-- `plot_forecast_component` of `plotting_utils.py`: if a rolling window is
given, first draw the rolling mean at `alpha=0.5`, then the raw column. -/
def plot_forecast_component (fcst : Fcst) (comp_name : String) (bar : Bool)
    (rolling : Option ℕ) : Except String (List Mark) := do
  let fcst_t := fcst.ds
  let underlay ← match rolling with
    | some w => do
        let y ← getCol fcst comp_name
        let rolling_avg := rollingMeanPandas w y
        let m ← if bar then axBar fcst_t rolling_avg 1 "#0072B2" (some (1/2))
                else axPlot fcst_t rolling_avg "#0072B2" (some (1/2))
        pure [m]
    | none => pure ([] : List Mark)
  let y ← getCol fcst comp_name
  let m ← if bar then axBar fcst_t y 1 "#0072B2" none
          else axPlot fcst_t y "#0072B2" none
  pure (underlay ++ [m])

/-- Column count of a 2-d numpy array, `weights.shape[1]`. -/
def ncols (m : List (List ℚ)) : ℕ := (m.headD []).length

/-- `np.sum(np.abs(weights), axis=0)`: per column, the sum of absolute values
down the rows (numpy arrays are rectangular, so reading past a row's end
cannot occur; `getD` with default 0 is harmless under that invariant). -/
def colAbsSums (m : List (List ℚ)) : List ℚ :=
  (List.range (ncols m)).map (fun j => (m.map (fun row => |row.getD j 0|)).sum)

/-- The no-focus value array of `plot_lagged_weights`:
`weights = np.sum(np.abs(weights), axis=0); weights = weights / np.sum(weights)`. -/
def laggedWeightValuesNoFocus (m : List (List ℚ)) : List ℚ :=
  (colAbsSums m).map (fun x => x / (colAbsSums m).sum)

/-- The focus value array of `plot_lagged_weights`: the raw, signed row
`weights[focus - 1, :]`; `none` models the `IndexError` of an out-of-range
row index. -/
def laggedWeightValuesFocus (m : List (List ℚ)) (f : ℕ) : Option (List ℚ) :=
  m[f - 1]?

/-- `plot_lagged_weights` of `plotting_utils.py`. Note the source sets
`n_lags = weights.shape[0]` — the first axis — and builds
`lags_range = list(range(1, 1 + n_lags))[::-1]` from it, while the plotted
value array lives along the second axis (the sum is over `axis=0`, and the
focus path takes the row `weights[focus - 1, :]`). -/
def plot_lagged_weights (weights : List (List ℚ)) (focus : Option ℕ) :
    Except String (List Mark) := do
  let n_lags := weights.length
  let lags_range := ((List.range' 1 n_lags).reverse).map (fun n => (n : ℚ))
  match focus with
  | none => do
      let m ← axBar lags_range ((laggedWeightValuesNoFocus weights).map some)
        1 "#0072B2" none
      pure [m]
  | some f => do
      let row ← match laggedWeightValuesFocus weights f with
                | some r => .ok r
                | none => .error "IndexError"
      let m ← axBar lags_range (row.map some) (4/5) "#0072B2" none
      pure [m]

/-- A seasonality registry: `season_config.periods` (name → period length)
plus the config's `mode`. -/
structure SeasonCfg where
  periods : List (String × ℚ)
  mode : String
  deriving DecidableEq

/-- `m.season_config.periods[name]['period']` as an `Option`. -/
def SeasonCfg.period? (sc : SeasonCfg) (name : String) : Option ℚ :=
  (sc.periods.find? (fun p => p.1 == name)).map Prod.snd

/-- The slice of a fitted NeuralProphet model that `plot_parameters` reads. -/
structure Model where
  n_changepoints : ℕ
  season_config : Option SeasonCfg
  n_lags : ℕ
  covar_config : Option (List String)
  ar_weights : List (List ℚ)
  covar_weights : String → List (List ℚ)
  trend_deltas : List ℚ
  shift : ℚ
  scale : ℚ
  trend_m0 : ℚ
  trend_k0 : ℚ

/-- One descriptor dict of the `components` list built by `plot_parameters`;
absent dict keys are `none`. -/
structure ParamComp where
  plot_name : String
  comp_name : Option String := none
  weights : Option (List (List ℚ)) := none
  focus : Option (Option ℕ) := none
  deriving DecidableEq

/-- The seasonality descriptors contributed by `season_config.periods`. -/
def seasonParamComps (m : Model) : List ParamComp :=
  match m.season_config with
  | none => []
  | some sc => sc.periods.map
      (fun p => { plot_name := "seasonality", comp_name := some p.1 })

/-- The AR lagged-weight descriptors (present iff `n_lags > 0`, the focus
variant additionally iff a focus horizon was requested). -/
def laggedParamComps (m : Model) (forecast_in_focus : Option ℕ) :
    List ParamComp :=
  if 0 < m.n_lags then
    [{ plot_name := "lagged weights", comp_name := some "AR",
       weights := some m.ar_weights, focus := some none }] ++
    (match forecast_in_focus with
     | none => []
     | some f => [{ plot_name := "lagged weights", comp_name := some "AR",
                    weights := some m.ar_weights, focus := some (some f) }])
  else []

/-- The covariate lagged-weight descriptors. -/
def covarParamComps (m : Model) (forecast_in_focus : Option ℕ) :
    List ParamComp :=
  match m.covar_config with
  | none => []
  | some names => names.flatMap (fun name =>
      [{ plot_name := "lagged weights",
         comp_name := some ("COV \"" ++ name ++ "\""),
         weights := some (m.covar_weights name), focus := some none }] ++
      (match forecast_in_focus with
       | none => []
       | some f => [{ plot_name := "lagged weights",
                      comp_name := some ("COV \"" ++ name ++ "\""),
                      weights := some (m.covar_weights name),
                      focus := some (some f) }]))

/-- The `components` list of `plot_parameters` before the empty-list fixup. -/
def buildParamComponents (m : Model) (forecast_in_focus : Option ℕ) :
    List ParamComp :=
  (if 0 < m.n_changepoints then [{ plot_name := "Trend changepoints" }] else [])
    ++ seasonParamComps m ++ laggedParamComps m forecast_in_focus
    ++ covarParamComps m forecast_in_focus

/-- `if len(components) == 0: components.append({'plot_name': 'Trend'})`. -/
def paramComponents (m : Model) (forecast_in_focus : Option ℕ) :
    List ParamComp :=
  let components := buildParamComponents m forecast_in_focus
  if components.length = 0 then [{ plot_name := "Trend" }] else components

/-- One rendered parameter panel. -/
inductive Panel where
  /-- Bar chart of trend-change magnitudes. -/
  | trendChange (deltas : List ℚ)
  /-- The two-point trend baseline `(t0, v0) — (t1, v1)`. -/
  | trendBaseline (t0 t1 v0 v1 : ℚ)
  /-- A weekly seasonal curve for the named component. -/
  | weeklyPanel (comp_name : String)
  /-- A yearly seasonal curve for the named component. -/
  | yearlyPanel (comp_name : String)
  /-- A lagged-weights bar panel. -/
  | laggedPanel (marks : List Mark)
  /-- A panel whose descriptor matched no dispatch arm: nothing is drawn. -/
  | blank
  deriving DecidableEq

/-- `plot_trend_change`: one bar per learned trend delta over changepoint
indices `0..n_changepoints`; matplotlib raises on a length mismatch. -/
def plot_trend_change (m : Model) : Except String Panel :=
  if (List.range (1 + m.n_changepoints)).length = m.trend_deltas.length
  then .ok (.trendChange m.trend_deltas)
  else .error "ValueError: shape mismatch"

/-- `plot_trend_0`: the two-point trend baseline from `(t_start, trend_0)` to
`(t_end, trend_0 + trend_k0)` with `t_start = data_params['ds'].shift` and
`t_end = t_start + data_params['ds'].scale`. -/
def plot_trend_0 (m : Model) : Except String Panel :=
  .ok (.trendBaseline m.shift (m.shift + m.scale) m.trend_m0
    (m.trend_m0 + m.trend_k0))

/-- `plot_weekly` draws the model's weekly seasonal curve; its values come
from the external `m.predict_seasonal_components` collaborator, so the panel
only records which renderer ran and on which component. -/
def plot_weekly (m : Model) (comp_name : String) : Except String Panel :=
  .ok (.weeklyPanel comp_name)

/-- `plot_yearly`, modelled like `plot_weekly`. -/
def plot_yearly (m : Model) (comp_name : String) : Except String Panel :=
  .ok (.yearlyPanel comp_name)

/-- `plot_custom_season` of the source is `raise NotImplementedError`: it
fails for every input. -/
def plot_custom_season (m : Model) (comp_name : String) : Except String Panel :=
  .error "NotImplementedError"

/-- Which seasonality renderer the dispatcher selects. -/
inductive SeasonRoute
  | weekly
  | yearly
  | custom
  deriving DecidableEq

/-- The seasonality routing of `plot_parameters`:
`if name.lower() == 'weekly' or periods[name]['period'] == 7: plot_weekly
elif name.lower() == 'yearly' or periods[name]['period'] == 365.25: plot_yearly
else: plot_custom_season`, with Python's short-circuit evaluation of the dict
access (absent `name` raises `KeyError` unless the name is `'weekly'`). -/
def routeSeasonality (sc : SeasonCfg) (name : String) :
    Except String SeasonRoute :=
  if name.toLower == "weekly" then .ok .weekly
  else match sc.period? name with
    | none => .error "KeyError"
    | some p =>
      if p == 7 then .ok .weekly
      else if name.toLower == "yearly" || p == 1461/4 then .ok .yearly
      else .ok .custom

/-- One step of the `plot_parameters` dispatch loop over descriptors. -/
def renderParamPanel (m : Model) (c : ParamComp) : Except String Panel :=
  let plot_name := c.plot_name.toLower
  if plot_name.startsWith "trend" then
    if strContains plot_name "changepoints" then plot_trend_change m
    else plot_trend_0 m
  else if plot_name.startsWith "seasonality" then
    match m.season_config, c.comp_name with
    | some sc, some name =>
        (routeSeasonality sc name).bind (fun r =>
          match r with
          | .weekly => plot_weekly m name
          | .yearly => plot_yearly m name
          | .custom => plot_custom_season m name)
    | _, _ => .error "AttributeError"
  else if plot_name == "lagged weights" then
    match c.weights, c.focus with
    | some w, some f => (plot_lagged_weights w f).map Panel.laggedPanel
    | _, _ => .error "KeyError"
  else .ok .blank

/-- `plot_parameters` of `plotting_utils.py`: build the descriptor list and
render one panel per descriptor. -/
def plot_parameters (m : Model) (forecast_in_focus : Option ℕ) :
    Except String (List Panel) :=
  mapExcept (renderParamPanel m) (paramComponents m forecast_in_focus)

end NP

deriving instance DecidableEq for Except

namespace NP

/-! Helper lemmas shared by the claim theorems. -/

@[simp] theorem except_bind_ok {ε α β : Type} (a : α) (f : α → Except ε β) :
    (Except.ok a : Except ε α) >>= f = f a := rfl

@[simp] theorem except_bind_error {ε α β : Type} (e : ε) (f : α → Except ε β) :
    (Except.error e : Except ε α) >>= f = .error e := rfl

@[simp] theorem except_pure_eq_ok {ε α : Type} (a : α) :
    (pure a : Except ε α) = .ok a := rfl

/-- A loop whose every iteration succeeds collects all its results. -/
theorem mapExcept_ok {α β : Type} (f : α → Except String β) (g : α → β)
    (l : List α) (h : ∀ a ∈ l, f a = .ok (g a)) :
    mapExcept f l = .ok (l.map g) := by
  induction l with
  | nil => rfl
  | cons a as ih =>
      have ha := h a (List.mem_cons_self a as)
      have has : ∀ x ∈ as, f x = .ok (g x) :=
        fun x hx => h x (List.mem_cons_of_mem a hx)
      simp [mapExcept, ha, ih has]

/-- The composite-forecast overlay alphas strictly decrease in the horizon
index. -/
theorem alphaComposite_lt (i j : ℕ) (h : i < j) :
    alphaComposite j < alphaComposite i := by
  unfold alphaComposite
  have hi : (0:ℚ) < (i:ℚ) + 5/2 := by positivity
  have hj : (0:ℚ) < (j:ℚ) + 5/2 := by positivity
  have hij : (i:ℚ) + 5/2 < (j:ℚ) + 5/2 := by
    have : (i:ℚ) < (j:ℚ) := by exact_mod_cast h
    linarith
  have := div_lt_div_of_pos_left (by norm_num : (0:ℚ) < 2) hi hij
  linarith

/-- The multi-forecast overlay alphas strictly decrease in the horizon
index. -/
theorem alphaMulti_lt (i j : ℕ) (h : i < j) : alphaMulti j < alphaMulti i := by
  unfold alphaMulti
  have hi : (0:ℚ) < (i:ℚ) + 1 * (6/5) := by positivity
  have hj : (0:ℚ) < (j:ℚ) + 1 * (6/5) := by positivity
  have hij : (i:ℚ) + 1 * (6/5) < (j:ℚ) + 1 * (6/5) := by
    have : (i:ℚ) < (j:ℚ) := by exact_mod_cast h
    linarith
  have := div_lt_div_of_pos_left (by norm_num : (0:ℚ) < 6/5 * (1 - 1/5)) hi hij
  linarith

/-- Mapping over the reversed range ends with the image of `0`. -/
theorem getLast?_reverseRangeMap {β : Type} (f : ℕ → β) (n : ℕ) (hn : 1 ≤ n) :
    (((List.range n).reverse).map f).getLast? = some (f 0) := by
  obtain ⟨m, rfl⟩ : ∃ m, n = m + 1 := ⟨n - 1, by omega⟩
  rw [List.range_succ_eq_map]
  simp [List.getLast?_concat]

/-- Evaluation of `plot_multiforecast_component` when the assert passes, every
overlay column is present and no focused series is drawn (`focus ≤ 1`). -/
theorem plot_multiforecast_component_eval (fcst : Fcst) (comp_name : String)
    (bar : Bool) (focus : ℕ) (n : ℕ) (cols : ℕ → Series)
    (hn : n ≤ (fcst.columns.filter (fun c => c.startsWith comp_name)).length)
    (hcols : ∀ i < n, fcst.lookup (comp_name ++ toString (i + 1)) = some (cols i))
    (hfocus : focus ≤ 1) :
    plot_multiforecast_component fcst comp_name bar focus (some n) =
      .ok (((List.range n).reverse).map (fun i =>
        mkSeriesMark bar (notnullPairs fcst.ds (cols i)) 1 "#0072B2"
          (some (alphaMulti i)))) := by
  have hloop : ∀ i ∈ (List.range n).reverse,
      (do
        let y ← getCol fcst (comp_name ++ toString (i + 1))
        pure (mkSeriesMark bar (notnullPairs fcst.ds y) 1 "#0072B2"
          (some (alphaMulti i))) : Except String Mark) =
      .ok (mkSeriesMark bar (notnullPairs fcst.ds (cols i)) 1 "#0072B2"
        (some (alphaMulti i))) := by
    intro i hi
    rw [List.mem_reverse, List.mem_range] at hi
    simp [getCol, hcols i hi]
  have hnotfocus : ¬ 1 < focus := by omega
  have hmap := mapExcept_ok
    (fun i => do
      let y ← getCol fcst (comp_name ++ toString (i + 1))
      pure (mkSeriesMark bar (notnullPairs fcst.ds y) 1 "#0072B2"
        (some (alphaMulti i))))
    (fun i => mkSeriesMark bar (notnullPairs fcst.ds (cols i)) 1 "#0072B2"
      (some (alphaMulti i)))
    ((List.range n).reverse) hloop
  simp only [plot_multiforecast_component]
  rw [if_neg (by omega :
    ¬ (List.filter (fun c => c.startsWith comp_name) fcst.columns).length < n)]
  rw [hmap]
  simp [hnotfocus]

/-- Evaluation of `plot_multiforecast_component` when additionally a focused
series (`focus > 1`) is drawn after the overlays. -/
theorem plot_multiforecast_component_eval_focus (fcst : Fcst)
    (comp_name : String) (bar : Bool) (focus : ℕ) (n : ℕ) (cols : ℕ → Series)
    (fcol : Series)
    (hn : n ≤ (fcst.columns.filter (fun c => c.startsWith comp_name)).length)
    (hcols : ∀ i < n, fcst.lookup (comp_name ++ toString (i + 1)) = some (cols i))
    (hfocus : 1 < focus)
    (hfcol : fcst.lookup (comp_name ++ toString focus) = some fcol) :
    plot_multiforecast_component fcst comp_name bar focus (some n) =
      .ok ((((List.range n).reverse).map (fun i =>
        mkSeriesMark bar (notnullPairs fcst.ds (cols i)) 1 "#0072B2"
          (some (alphaMulti i))))
        ++ [mkSeriesMark bar (notnullPairs fcst.ds fcol) 1 "b" none]) := by
  have hloop : ∀ i ∈ (List.range n).reverse,
      (do
        let y ← getCol fcst (comp_name ++ toString (i + 1))
        pure (mkSeriesMark bar (notnullPairs fcst.ds y) 1 "#0072B2"
          (some (alphaMulti i))) : Except String Mark) =
      .ok (mkSeriesMark bar (notnullPairs fcst.ds (cols i)) 1 "#0072B2"
        (some (alphaMulti i))) := by
    intro i hi
    rw [List.mem_reverse, List.mem_range] at hi
    simp [getCol, hcols i hi]
  have hmap := mapExcept_ok
    (fun i => do
      let y ← getCol fcst (comp_name ++ toString (i + 1))
      pure (mkSeriesMark bar (notnullPairs fcst.ds y) 1 "#0072B2"
        (some (alphaMulti i))))
    (fun i => mkSeriesMark bar (notnullPairs fcst.ds (cols i)) 1 "#0072B2"
      (some (alphaMulti i)))
    ((List.range n).reverse) hloop
  simp only [plot_multiforecast_component]
  rw [if_neg (by omega :
    ¬ (List.filter (fun c => c.startsWith comp_name) fcst.columns).length < n)]
  rw [hmap]
  simp [hfocus, getCol, hfcol]

/-- The null filtering of `plot_multiforecast_component` keeps exactly the
rows whose value is non-null. -/
theorem mem_notnullPairs (ds : List ℚ) (y : Series) (t v : ℚ) :
    (t, v) ∈ notnullPairs ds y ↔ (t, some v) ∈ ds.zip y := by
  unfold notnullPairs
  rw [List.mem_filterMap]
  constructor
  · rintro ⟨⟨t', ov⟩, hmem, hf⟩
    cases ov with
    | none => simp at hf
    | some v' =>
        simp only [Option.some.injEq, Prod.mk.injEq] at hf
        obtain ⟨h1, h2⟩ := hf
        subst h1
        subst h2
        exact hmem
  · intro hmem
    exact ⟨(t, some v), hmem, rfl⟩

/-- Claim C3: in `plot_multiforecast_component` with overlay count `n`, the
series for horizon index `i` is drawn with alpha
`0.2 + 1.2*0.8/(i+1.2)`, these alphas strictly decrease as `i` increases,
and the iteration runs from `i = n-1` down to `i = 0`, so the horizon-0
series is the last overlay mark drawn. -/
theorem claim_C3_multiforecast_alpha_order (fcst : Fcst) (comp_name : String)
    (n : ℕ) (cols : ℕ → Series)
    (hn1 : 1 ≤ n)
    (hn : n ≤ (fcst.columns.filter (fun c => c.startsWith comp_name)).length)
    (hcols : ∀ i < n, fcst.lookup (comp_name ++ toString (i + 1)) = some (cols i)) :
    plot_multiforecast_component fcst comp_name false 1 (some n) =
      .ok (((List.range n).reverse).map (fun i =>
        Mark.linePts (notnullPairs fcst.ds (cols i)) "#0072B2"
          (some (alphaMulti i)))) ∧
    (∀ i : ℕ, alphaMulti i = 1/5 + (6/5) * (4/5) / ((i : ℚ) + 6/5)) ∧
    (∀ i j : ℕ, i < j → alphaMulti j < alphaMulti i) ∧
    (((List.range n).reverse).map (fun i =>
        Mark.linePts (notnullPairs fcst.ds (cols i)) "#0072B2"
          (some (alphaMulti i)))).getLast? =
      some (Mark.linePts (notnullPairs fcst.ds (cols 0)) "#0072B2"
        (some (alphaMulti 0))) := by
  refine ⟨?_, ?_, alphaMulti_lt, getLast?_reverseRangeMap _ n hn1⟩
  · have := plot_multiforecast_component_eval fcst comp_name false 1 n cols hn
      hcols (le_refl 1)
    simpa [mkSeriesMark] using this
  · intro i
    unfold alphaMulti
    norm_num

/-- Witness for C3: a concrete two-horizon table. -/
theorem claim_C3_multiforecast_alpha_order_witness :
    plot_multiforecast_component
        ⟨[0, 1, 2], [("ar1", [some 1, some 2, none]),
                     ("ar2", [none, some 5, some 6])]⟩ "ar" false 1 (some 2) =
      .ok [Mark.linePts [(1, 5), (2, 6)] "#0072B2" (some (alphaMulti 1)),
           Mark.linePts [(0, 1), (1, 2)] "#0072B2" (some (alphaMulti 0))] :=
  ((claim_C3_multiforecast_alpha_order
      ⟨[0, 1, 2], [("ar1", [some 1, some 2, none]),
                   ("ar2", [none, some 5, some 6])]⟩ "ar" 2
      (fun i => if i = 0 then [some 1, some 2, none] else [none, some 5, some 6])
      (by with_unfolding_all decide) (by with_unfolding_all decide) (by with_unfolding_all decide)).1).trans (by with_unfolding_all decide)

/-- Claim C4: when the requested overlay count exceeds the number of forecast
columns starting with the component-name, the call fails immediately on its
assert, before any series is drawn. -/
theorem claim_C4_overplot_assert (fcst : Fcst) (comp_name : String) (bar : Bool)
    (focus : ℕ) (n : ℕ)
    (h : (fcst.columns.filter (fun c => c.startsWith comp_name)).length < n) :
    plot_multiforecast_component fcst comp_name bar focus (some n) =
      .error "AssertionError" := by
  simp only [plot_multiforecast_component]
  rw [if_pos h]

/-- Witness for C4: one `ar` column, two overlays requested. -/
theorem claim_C4_overplot_assert_witness :
    plot_multiforecast_component
        ⟨[0, 1], [("ar1", [some 1, some 2])]⟩ "ar" false 1 (some 2) =
      .error "AssertionError" :=
  claim_C4_overplot_assert ⟨[0, 1], [("ar1", [some 1, some 2])]⟩ "ar" false 1 2
    (by with_unfolding_all decide)

/-- Claim C5: called with `num_overplot = None` (the documented default), the
assert compares `None` with an integer, a Python 3 `TypeError`, so the call
fails before drawing anything and the only-plot-focus branch is
unreachable. -/
theorem claim_C5_none_overplot_type_error (fcst : Fcst) (comp_name : String)
    (bar : Bool) (focus : ℕ) :
    plot_multiforecast_component fcst comp_name bar focus none =
      .error "TypeError: NoneType and int are not comparable" := rfl

/-- Claim C9: every overlaid and every focused series passes exactly the
non-null (timestamp, value) pairs of its column to the drawing call. -/
theorem claim_C9_notnull_filtering (fcst : Fcst) (comp_name : String)
    (n focus : ℕ) (cols : ℕ → Series) (fcol : Series)
    (hn : n ≤ (fcst.columns.filter (fun c => c.startsWith comp_name)).length)
    (hcols : ∀ i < n, fcst.lookup (comp_name ++ toString (i + 1)) = some (cols i))
    (hfocus : 1 < focus)
    (hfcol : fcst.lookup (comp_name ++ toString focus) = some fcol) :
    plot_multiforecast_component fcst comp_name false focus (some n) =
      .ok ((((List.range n).reverse).map (fun i =>
        Mark.linePts (notnullPairs fcst.ds (cols i)) "#0072B2"
          (some (alphaMulti i))))
        ++ [Mark.linePts (notnullPairs fcst.ds fcol) "b" none]) ∧
    (∀ (ds : List ℚ) (y : Series) (t v : ℚ),
      (t, v) ∈ notnullPairs ds y ↔ (t, some v) ∈ ds.zip y) := by
  constructor
  · have := plot_multiforecast_component_eval_focus fcst comp_name false focus n
      cols fcol hn hcols hfocus hfcol
    simpa [mkSeriesMark] using this
  · exact mem_notnullPairs

/-- Witness for C9: two overlays and a focused second horizon, with nulls. -/
theorem claim_C9_notnull_filtering_witness :
    plot_multiforecast_component
        ⟨[0, 1, 2], [("ar1", [some 1, some 2, none]),
                     ("ar2", [none, some 5, some 6])]⟩ "ar" false 2 (some 2) =
      .ok [Mark.linePts [(1, 5), (2, 6)] "#0072B2" (some (alphaMulti 1)),
           Mark.linePts [(0, 1), (1, 2)] "#0072B2" (some (alphaMulti 0)),
           Mark.linePts [(1, 5), (2, 6)] "b" none] :=
  ((claim_C9_notnull_filtering
      ⟨[0, 1, 2], [("ar1", [some 1, some 2, none]),
                   ("ar2", [none, some 5, some 6])]⟩ "ar" 2 2
      (fun i => if i = 0 then [some 1, some 2, none] else [none, some 5, some 6])
      [none, some 5, some 6]
      (by with_unfolding_all decide) (by with_unfolding_all decide) (by with_unfolding_all decide) (by with_unfolding_all decide)).1).trans
    (by with_unfolding_all decide)

/-- Claim C1: on a table whose yhat-containing columns are exactly
`yhat1..yhatk` (k ≥ 1), `plot` draws exactly `k` overlay lines, the `i`-th
with alpha `0.2 + 2.0/(i+2.5)`; with a highlight index `h` (of one of the `k`
forecasts) it draws exactly 2 additional marks — a solid line and a `'bx'`
point overlay of that forecast — right after the `k` overlays; and the overlay
alphas strictly decrease in the horizon index. -/
theorem claim_C1_composite_marks (fcst : Fcst) (k h : ℕ) (cols : ℕ → Series)
    (ycol : Series)
    (hk : 1 ≤ k)
    (hfilter : fcst.columns.filter (fun c => strContains c "yhat") =
      (List.range k).map (fun i => yhatName (i + 1)))
    (hcols : ∀ i < k, fcst.lookup (yhatName (i + 1)) = some (cols i))
    (hlen : ∀ i < k, (cols i).length = fcst.ds.length)
    (hh1 : 1 ≤ h) (hhk : h ≤ k)
    (hy : fcst.lookup "y" = some ycol)
    (hylen : ycol.length = fcst.ds.length) :
    plot fcst none = .ok (
      ((List.range k).map (fun i =>
        Mark.line fcst.ds (cols i) "#0072B2" (some (alphaComposite i))))
      ++ [Mark.pointsMark fcst.ds ycol "k."]) ∧
    plot fcst (some h) = .ok (
      ((List.range k).map (fun i =>
        Mark.line fcst.ds (cols i) "#0072B2" (some (alphaComposite i))))
      ++ [Mark.line fcst.ds (cols (h - 1)) "b" none,
          Mark.pointsMark fcst.ds (cols (h - 1)) "bx"]
      ++ [Mark.pointsMark fcst.ds ycol "k."]) ∧
    (∀ i j : ℕ, i < j → alphaComposite j < alphaComposite i) := by
  have hloop : ∀ i ∈ List.range k,
      (do
        let y ← getCol fcst (yhatName (i + 1))
        axPlot fcst.ds y "#0072B2" (some (alphaComposite i)) :
          Except String Mark) =
      .ok (Mark.line fcst.ds (cols i) "#0072B2" (some (alphaComposite i))) := by
    intro i hi
    rw [List.mem_range] at hi
    simp [getCol, hcols i hi, axPlot, hlen i hi]
  have hmap := mapExcept_ok
    (fun i => do
      let y ← getCol fcst (yhatName (i + 1))
      axPlot fcst.ds y "#0072B2" (some (alphaComposite i)))
    (fun i => Mark.line fcst.ds (cols i) "#0072B2" (some (alphaComposite i)))
    (List.range k) hloop
  have hcolh : fcst.lookup (yhatName h) = some (cols (h - 1)) := by
    have := hcols (h - 1) (by omega)
    rwa [show h - 1 + 1 = h by omega] at this
  refine ⟨?_, ?_, alphaComposite_lt⟩
  · simp only [plot]
    rw [hfilter, List.length_map, List.length_range, hmap]
    simp [getCol, hy, axPoints, hylen]
  · simp only [plot]
    rw [hfilter, List.length_map, List.length_range, hmap]
    simp [getCol, hcolh, hy, axPlot, axPoints, hlen (h - 1) (by omega), hylen]

/-- Witness for C1: two forecast columns, highlight on the second. -/
theorem claim_C1_composite_marks_witness :
    plot ⟨[0, 1], [("yhat1", [some 1, some 2]), ("yhat2", [none, some 3]),
                   ("y", [some 1, some 2])]⟩ (some 2) =
      .ok [Mark.line [0, 1] [some 1, some 2] "#0072B2" (some (alphaComposite 0)),
           Mark.line [0, 1] [none, some 3] "#0072B2" (some (alphaComposite 1)),
           Mark.line [0, 1] [none, some 3] "b" none,
           Mark.pointsMark [0, 1] [none, some 3] "bx",
           Mark.pointsMark [0, 1] [some 1, some 2] "k."] :=
  ((claim_C1_composite_marks
      ⟨[0, 1], [("yhat1", [some 1, some 2]), ("yhat2", [none, some 3]),
                ("y", [some 1, some 2])]⟩ 2 2
      (fun i => if i = 0 then [some 1, some 2] else [none, some 3])
      [some 1, some 2]
      (by with_unfolding_all decide) (by with_unfolding_all decide)
      (by with_unfolding_all decide) (by with_unfolding_all decide)
      (by with_unfolding_all decide) (by with_unfolding_all decide)
      (by with_unfolding_all decide) (by with_unfolding_all decide)).2.1).trans
    (by with_unfolding_all decide)

@[simp] theorem rollingMeanPandas_length (w : ℕ) (xs : Series) :
    (rollingMeanPandas w xs).length = xs.length := by
  simp [rollingMeanPandas]

/-- For an odd window `w = 2r+1` the forward-leaning pandas window bounds
coincide with the symmetric centered bounds. -/
theorem pandasWindow_odd (r n i : ℕ) :
    pandasWindow (2*r+1) n i = (List.range n).filter
      (fun j => decide (i ≤ j + (2*r+1 - 1) / 2 ∧ j ≤ i + (2*r+1 - 1) / 2)) := by
  unfold pandasWindow
  apply List.filter_congr
  intro j hj
  have h1 : (2*r+1) / 2 = r := by omega
  have h2 : (2*r+1 - 1) / 2 = r := by omega
  rw [h1, h2]

/-- Pointwise value of the pandas rolling mean. -/
theorem rollingMeanPandas_get (w : ℕ) (xs : Series) (i : ℕ)
    (hi : i < xs.length) :
    (rollingMeanPandas w xs)[i]? =
      some (meanOpt ((pandasWindow w xs.length i).filterMap
        (fun j => (xs.get? j).bind id))) := by
  unfold rollingMeanPandas
  rw [List.getElem?_map, List.getElem?_range hi]
  rfl

/-- Claim C6: with a rolling window `w` (odd, covering the spec's 1, 3, 7),
`plot_forecast_component` draws the pandas rolling mean as the underlay, and
at every row index that underlay equals the spec's centered rolling mean with
window `w` and minimum period 1. -/
theorem claim_C6_rolling_mean (fcst : Fcst) (comp_name : String) (y : Series)
    (r : ℕ) (hy : fcst.lookup comp_name = some y)
    (hlen : y.length = fcst.ds.length) :
    plot_forecast_component fcst comp_name false (some (2*r+1)) =
      .ok [Mark.line fcst.ds (rollingMeanPandas (2*r+1) y) "#0072B2"
             (some (1/2)),
           Mark.line fcst.ds y "#0072B2" none] ∧
    ∀ i < y.length, (rollingMeanPandas (2*r+1) y)[i]? =
      some (centeredMeanSpec (2*r+1) y i) := by
  constructor
  · simp only [plot_forecast_component]
    simp [getCol, hy, axPlot, hlen, rollingMeanPandas_length]
  · intro i hi
    rw [rollingMeanPandas_get (2*r+1) y i hi]
    unfold centeredMeanSpec
    rw [pandasWindow_odd]

/-- Witness for C6: window 3 on a four-row column with a null. -/
theorem claim_C6_rolling_mean_witness :
    plot_forecast_component
        ⟨[0, 1, 2, 3], [("trend", [some 1, some 2, none, some 4])]⟩
        "trend" false (some 3) =
      .ok [Mark.line [0, 1, 2, 3]
             (rollingMeanPandas 3 [some 1, some 2, none, some 4]) "#0072B2"
             (some (1/2)),
           Mark.line [0, 1, 2, 3] [some 1, some 2, none, some 4] "#0072B2"
             none] :=
  (claim_C6_rolling_mean
      ⟨[0, 1, 2, 3], [("trend", [some 1, some 2, none, some 4])]⟩ "trend"
      [some 1, some 2, none, some 4] 1
      (by with_unfolding_all decide) (by with_unfolding_all decide)).1

/-- Claim C2 (code bug): on a non-square `[3 horizons, 4 lags]` matrix with a
non-zero entry, the no-focus value array computed by `plot_lagged_weights`
has length 4, is non-negative and sums to 1 — exactly the array the claim
describes — but the draw itself fails: the lag axis was built from
`weights.shape[0] = 3` (the horizon axis), so the bar call raises a shape
mismatch and nothing is plotted. -/
theorem claim_C2_lagged_weights_bug :
    laggedWeightValuesNoFocus [[1, 0, 0, 0], [0, 1, 0, 0], [0, 0, 1, 0]] =
      [1/3, 1/3, 1/3, 0] ∧
    (laggedWeightValuesNoFocus
      [[1, 0, 0, 0], [0, 1, 0, 0], [0, 0, 1, 0]]).length = 4 ∧
    (laggedWeightValuesNoFocus
      [[1, 0, 0, 0], [0, 1, 0, 0], [0, 0, 1, 0]]).sum = 1 ∧
    (∀ x ∈ laggedWeightValuesNoFocus
      [[1, 0, 0, 0], [0, 1, 0, 0], [0, 0, 1, 0]], 0 ≤ x) ∧
    plot_lagged_weights [[1, 0, 0, 0], [0, 1, 0, 0], [0, 0, 1, 0]] none =
      .error "ValueError: shape mismatch" := by
  with_unfolding_all decide

/-- Claim C7 (code bug): with `focus = 2` on a `[3, 4]` matrix the selected
value array is the raw signed row at index `focus - 1 = 1` (here with a
negative entry), exactly as the claim describes, but the draw itself fails:
the lag axis has length `weights.shape[0] = 3` against a length-4 row, so the
bar call raises a shape mismatch and nothing is plotted. -/
theorem claim_C7_lagged_weights_focus_bug :
    laggedWeightValuesFocus [[1, -2, 0, 0], [0, 3, -1, 0], [0, 0, 0, 5]] 2 =
      some [0, 3, -1, 0] ∧
    plot_lagged_weights [[1, -2, 0, 0], [0, 3, -1, 0], [0, 0, 0, 5]] (some 2) =
      .error "ValueError: shape mismatch" := by
  with_unfolding_all decide

/-- Claim C8: the parameter dispatcher routes a seasonality (with a registered
period `p`) to the weekly renderer iff its lowercased name is `"weekly"` or
`p = 7`, else to the yearly renderer iff its name is `"yearly"` or
`p = 365.25`, and every other seasonality to `plot_custom_season`, which
raises `NotImplementedError` for every input. -/
theorem claim_C8_seasonality_routing (m : Model) (sc : SeasonCfg)
    (name : String) (p : ℚ)
    (hm : m.season_config = some sc)
    (hp : sc.period? name = some p) :
    (routeSeasonality sc name = .ok .weekly ↔
      (name.toLower = "weekly" ∨ p = 7)) ∧
    (routeSeasonality sc name = .ok .yearly ↔
      (¬(name.toLower = "weekly" ∨ p = 7) ∧
        (name.toLower = "yearly" ∨ p = 1461/4))) ∧
    (routeSeasonality sc name = .ok .custom ↔
      (¬(name.toLower = "weekly" ∨ p = 7) ∧
        ¬(name.toLower = "yearly" ∨ p = 1461/4))) ∧
    (∀ cname : String, plot_custom_season m cname =
      .error "NotImplementedError") ∧
    (routeSeasonality sc name = .ok .custom →
      renderParamPanel m { plot_name := "seasonality", comp_name := some name } =
        .error "NotImplementedError") := by
  have hroute : routeSeasonality sc name =
      if name.toLower = "weekly" ∨ p = 7 then .ok .weekly
      else if name.toLower = "yearly" ∨ p = 1461/4 then .ok .yearly
      else .ok .custom := by
    unfold routeSeasonality
    rw [hp]
    by_cases h1 : name.toLower = "weekly" <;> by_cases h2 : p = 7 <;>
      by_cases h3 : name.toLower = "yearly" <;> by_cases h4 : p = 1461/4 <;>
      simp [h1, h2, h3, h4]
  have hdisp : routeSeasonality sc name = .ok .custom →
      renderParamPanel m { plot_name := "seasonality", comp_name := some name } =
        .error "NotImplementedError" := by
    intro hcustom
    have e1 : ("seasonality".toLower).startsWith "trend" = false := by
      with_unfolding_all decide
    have e2 : ("seasonality".toLower).startsWith "seasonality" = true := by
      with_unfolding_all decide
    simp only [renderParamPanel, e1, e2, Bool.false_eq_true, if_false, if_true,
      hm, hcustom]
    rfl
  refine ⟨?_, ?_, ?_, fun _ => rfl, hdisp⟩ <;> rw [hroute] <;>
    by_cases hw : name.toLower = "weekly" ∨ p = 7 <;>
    by_cases hy2 : name.toLower = "yearly" ∨ p = 1461/4 <;>
    simp [hw, hy2]

/-- Witness for C8: a registered seasonality named `"monthly"` with period 30
routes to the (unconditionally failing) custom renderer. -/
theorem claim_C8_seasonality_routing_witness :
    routeSeasonality ⟨[("monthly", 30)], "additive"⟩ "monthly" =
        .ok .custom ↔
      (¬("monthly".toLower = "weekly" ∨ (30:ℚ) = 7) ∧
        ¬("monthly".toLower = "yearly" ∨ (30:ℚ) = 1461/4)) :=
  (claim_C8_seasonality_routing
      { n_changepoints := 0, season_config := some ⟨[("monthly", 30)], "additive"⟩,
        n_lags := 0, covar_config := none, ar_weights := [],
        covar_weights := fun _ => [], trend_deltas := [], shift := 0,
        scale := 1, trend_m0 := 0, trend_k0 := 0 }
      ⟨[("monthly", 30)], "additive"⟩ "monthly" 30
      rfl (by with_unfolding_all decide)).2.2.1

/-- Claim C10: with zero changepoints, no configured seasonalities, zero lags
and no covariates, the descriptor list of `plot_parameters` is empty, a single
`'Trend'` descriptor is appended, and the figure renders exactly one panel:
the two-point trend baseline. -/
theorem claim_C10_trend_fallback (m : Model) (fif : Option ℕ)
    (h1 : m.n_changepoints = 0)
    (h2 : seasonParamComps m = [])
    (h3 : m.n_lags = 0)
    (h4 : m.covar_config = none) :
    paramComponents m fif = [{ plot_name := "Trend" }] ∧
    plot_parameters m fif =
      .ok [Panel.trendBaseline m.shift (m.shift + m.scale) m.trend_m0
        (m.trend_m0 + m.trend_k0)] := by
  have hc : covarParamComps m fif = [] := by
    unfold covarParamComps
    rw [h4]
  have hl : laggedParamComps m fif = [] := by
    unfold laggedParamComps
    rw [h3]
    simp
  have hbuild : buildParamComponents m fif = [] := by
    unfold buildParamComponents
    rw [h1, h2, hl, hc]
    simp
  have hcomp : paramComponents m fif = [{ plot_name := "Trend" }] := by
    unfold paramComponents
    rw [hbuild]
    rfl
  refine ⟨hcomp, ?_⟩
  unfold plot_parameters
  rw [hcomp]
  have e1 : ("Trend".toLower).startsWith "trend" = true := by
    with_unfolding_all decide
  have e2 : strContains ("Trend".toLower) "changepoints" = false := by
    with_unfolding_all decide
  simp [mapExcept, renderParamPanel, e1, e2, plot_trend_0]

/-- Witness for C10: a concrete model with the empty configuration. -/
theorem claim_C10_trend_fallback_witness :
    plot_parameters
        { n_changepoints := 0, season_config := none, n_lags := 0,
          covar_config := none, ar_weights := [], covar_weights := fun _ => [],
          trend_deltas := [], shift := 10, scale := 5, trend_m0 := 2,
          trend_k0 := 3 } none =
      .ok [Panel.trendBaseline 10 (10 + 5) 2 (2 + 3)] :=
  (claim_C10_trend_fallback
      { n_changepoints := 0, season_config := none, n_lags := 0,
        covar_config := none, ar_weights := [], covar_weights := fun _ => [],
        trend_deltas := [], shift := 10, scale := 5, trend_m0 := 2,
        trend_k0 := 3 } none rfl rfl rfl rfl).2

end NP
